import Mathlib

/-!
# Verification of the penpot `render-wasm` rendering core

A shallow embedding of `src/render-wasm/src/render.rs`: the render-state
machine (surfaces, viewbox, image table, cached-frame record), the recursive
shape-tree renderer with view-frustum culling and completeness tracking, the
per-fill renderer, and the cache/navigation fast path.

Machine floats (`f32`) are embedded as exact rationals `ℚ`; 32-bit surface
dimensions as `Int`; `Uuid` as `Nat` with `0` playing the role of
`Uuid::nil()`.  Skia side effects (canvas calls, GPU flushes, surface
reallocation) are embedded as an explicit event trace, so that theorems can
speak about what is and is not drawn.
-/

set_option autoImplicit false

namespace Penpot

/-! ## Rectangles (skia `SkRect` semantics, used through `crate::math::Rect`) -/

/-- An axis-aligned rectangle with `f32` edges, embedded over `ℚ`.
Mirrors skia's `SkRect` as used by `crate::math::Rect`. -/
structure Rect where
  left : ℚ
  top : ℚ
  right : ℚ
  bottom : ℚ
deriving DecidableEq, Repr

namespace Rect

/-- skia `SkRect::isEmpty`: a rect is empty unless `left < right ∧ top < bottom`. -/
def isEmpty (r : Rect) : Bool :=
  r.right ≤ r.left || r.bottom ≤ r.top

/-- skia `SkRect::contains(const SkRect&)` (the `skia::Contains` trait used by
`CachedSurfaceImage::is_dirty` and `render_shape_tree`): `a` contains `b` iff
both are non-empty and `b`'s edges lie within `a`'s. -/
def contains (a b : Rect) : Bool :=
  !b.isEmpty && !a.isEmpty &&
    decide (a.left ≤ b.left) && decide (a.top ≤ b.top) &&
    decide (b.right ≤ a.right) && decide (b.bottom ≤ a.bottom)

/-- skia `SkRect::intersects`: true iff the intersection is non-empty (strict). -/
def intersects (a b : Rect) : Bool :=
  decide (max a.left b.left < min a.right b.right) &&
    decide (max a.top b.top < min a.bottom b.bottom)

/-- skia `SkRect::center`. -/
def center (r : Rect) : ℚ × ℚ :=
  ((r.left + r.right) / 2, (r.top + r.bottom) / 2)

/-- skia `SkRect::x()` -/
def x (r : Rect) : ℚ := r.left

/-- skia `SkRect::y()` -/
def y (r : Rect) : ℚ := r.top

/-- skia `SkRect::width()` -/
def width (r : Rect) : ℚ := r.right - r.left

/-- skia `SkRect::height()` -/
def height (r : Rect) : ℚ := r.bottom - r.top

/-- skia `SkRect::setXYWH`. -/
def setXYWH (x y w h : ℚ) : Rect :=
  ⟨x, y, x + w, y + h⟩

/-- A rect contained (skia-style) in `a` intersects `a`. -/
theorem intersects_of_contains {a b : Rect} (h : contains a b = true) :
    intersects b a = true := by
  simp only [contains, Bool.and_eq_true, Bool.not_eq_true', decide_eq_true_eq] at h
  obtain ⟨⟨⟨⟨⟨hbne, hane⟩, h1⟩, h2⟩, h3⟩, h4⟩ := h
  simp only [isEmpty, Bool.or_eq_false_iff, decide_eq_false_iff_not, not_le] at hbne
  simp only [intersects, Bool.and_eq_true, decide_eq_true_eq]
  constructor
  · rw [max_eq_left h1, min_eq_left h3]
    exact hbne.1
  · rw [max_eq_left h2, min_eq_left h4]
    exact hbne.2

end Rect

/-! ## Viewbox -/

/-- Modelled from the spec: `crate::view::Viewbox` (its source is outside the
provided tree).  "Mutable value describing the visible window: pixel
width/height, zoom factor, pan offsets (x,y), and a derived visible-area
rectangle in scene coordinates.  Invariant: visible-area is always recomputed
as a pure function of width, height, zoom, pan." -/
structure Viewbox where
  width : ℚ
  height : ℚ
  zoom : ℚ
  pan_x : ℚ
  pan_y : ℚ
  area : Rect
deriving DecidableEq, Repr

namespace Viewbox

/-- Modelled from the spec: the derived visible area as a pure function of
width, height, zoom and pan (scene window of size `size / zoom` anchored at
`-pan`). The claims below never depend on this particular formula, only on
the invariant that `set_wh` recomputes it from the updated size. -/
def computeArea (w h zoom px py : ℚ) : Rect :=
  ⟨-px, -py, -px + w / zoom, -py + h / zoom⟩

/-- Modelled from the spec: `Viewbox::new(width, height)` initializes the
viewbox to `(width, height, zoom=default(1), pan=0,0)`. -/
def new (w h : ℚ) : Viewbox :=
  { width := w, height := h, zoom := 1, pan_x := 0, pan_y := 0
    area := computeArea w h 1 0 0 }

/-- Modelled from the spec: `Viewbox::set_wh` updates the logical size and
recomputes the derived visible area. -/
def set_wh (vb : Viewbox) (w h : ℚ) : Viewbox :=
  { vb with width := w, height := h
            area := computeArea w h vb.zoom vb.pan_x vb.pan_y }

end Viewbox

/-! ## Shapes (the externally owned data the renderer reads) -/

/-- A fill descriptor (`crate::shapes::Fill`).  `render.rs` only
distinguishes image fills (carrying the referenced asset id and declared
intrinsic size) from all other paint layers; non-image descriptors are kept
abstract. -/
inductive Fill where
  /-- `Fill::Image(image_fill)` with `image_fill.id()` and `image_fill.size()`. -/
  | image (id : Nat) (size : ℚ × ℚ)
  /-- A solid color fill, with an abstract descriptor. -/
  | solid (descriptor : Nat)
  /-- A gradient fill, with an abstract descriptor. -/
  | gradient (descriptor : Nat)
deriving DecidableEq, Repr

/-- Whether a fill is an image fill. -/
def Fill.isImage : Fill → Bool
  | .image _ _ => true
  | _ => false

/-- Shape geometry kind (`crate::shapes::Kind`): `Rect` or `Path`, each with
kind-specific geometry (the path payload is kept abstract). -/
inductive Kind where
  | rect (r : Rect)
  | path (p : Nat)
deriving DecidableEq, Repr

/-- A shape (`crate::shapes::Shape`), externally owned and read-only during a
render pass: bounding rect `selrect`, ordered child ids, visibility flag,
ordered fills, affine-decomposed transform, opacity, blend mode and kind. -/
structure Shape where
  selrect : Rect
  children : List Nat
  hidden : Bool
  fills : List Fill
  kind : Kind
  translation : ℚ × ℚ
  scale : ℚ × ℚ
  skew : ℚ × ℚ
  opacity : ℚ
  blend_mode : Nat
deriving DecidableEq, Repr

/-- The shape table supplied by the host: a mapping from shape id to shape
(`&HashMap<Uuid, Shape>`), with `0` as the synthetic root id (`Uuid::nil`). -/
def Shapes : Type := Nat → Option Shape

/-! ## Affine matrices (`skia::Matrix`, as composed by `render_single_shape`) -/

/-- The affine part of a `skia::Matrix` (the code always sets the perspective
row to `0, 0, 1`).  Field names follow `Matrix::set_all`'s argument order. -/
structure Matrix where
  scale_x : ℚ
  skew_x : ℚ
  trans_x : ℚ
  skew_y : ℚ
  scale_y : ℚ
  trans_y : ℚ
deriving DecidableEq, Repr

namespace Matrix

/-- `skia::Matrix::post_translate`: `M ↦ T(dx,dy) * M`. -/
def post_translate (m : Matrix) (dx dy : ℚ) : Matrix :=
  { m with trans_x := m.trans_x + dx, trans_y := m.trans_y + dy }

/-- `skia::Matrix::pre_translate`: `M ↦ M * T(dx,dy)`. -/
def pre_translate (m : Matrix) (dx dy : ℚ) : Matrix :=
  { m with
    trans_x := m.trans_x + m.scale_x * dx + m.skew_x * dy
    trans_y := m.trans_y + m.skew_y * dx + m.scale_y * dy }

end Matrix

/-- The transform composed by `render_single_shape`: `set_all` from the
shape's translation/scale/skew, then `post_translate(center)` and
`pre_translate(-center)` so that scale and skew pivot at the center of the
shape's bounding rect. -/
def shapeMatrix (sh : Shape) : Matrix :=
  let m : Matrix :=
    { scale_x := sh.scale.1, skew_x := sh.skew.1, trans_x := sh.translation.1
      skew_y := sh.skew.2, scale_y := sh.scale.2, trans_y := sh.translation.2 }
  let c := sh.selrect.center
  (m.post_translate c.1 c.2).pre_translate (-c.1) (-c.2)

/-! ## The event trace: an explicit record of skia / GPU side effects -/

/-- The three surfaces owned by the render state. -/
inductive SurfId where
  | final
  | drawing
  | debug
deriving DecidableEq, Repr

/-- One skia / GPU side effect issued by the renderer.  Each constructor
corresponds to a call site in `render.rs`; its arguments record exactly the
data that call receives. -/
inductive Event where
  /-- `create_target_surface` + the two `new_surface_with_dimensions` calls in
  `resize` — a reallocation of all three surfaces at the given pixel size. -/
  | realloc (width height : Int)
  /-- `reset_canvas`: clear + reset matrix on all three surfaces. -/
  | resetCanvas
  /-- `canvas().scale((sx, sy))` on the given surface. -/
  | scaleCanvas (s : SurfId) (sx sy : ℚ)
  /-- `canvas().translate((dx, dy))` on the given surface. -/
  | translateCanvas (s : SurfId) (dx dy : ℚ)
  /-- `canvas().save()` on the given surface. -/
  | save (s : SurfId)
  /-- `canvas().restore()` on the given surface. -/
  | restore (s : SurfId)
  /-- `canvas().concat(&matrix)` on the drawing surface (`render_single_shape`). -/
  | concat (m : Matrix)
  /-- `render_debug_shape(shape, intersected)`: one stroked rect on the debug
  surface; records the scaled rect drawn and the `intersected` flag (which
  picks the stroke color: "included" vs "excluded"). -/
  | debugRect (scaled : Rect) (intersected : Bool)
  /-- `draw_image_in_container(canvas, image, size, kind, paint)` for an image
  fill; records the looked-up image, the fill's declared size, the shape kind
  and the paint inputs (fill descriptor + selrect). -/
  | drawImageInContainer (image : Nat) (size : ℚ × ℚ) (kind : Kind)
      (fill : Fill) (selrect : Rect)
  /-- The `Kind::Rect` non-image branch of `render_fill`: renders the fixed,
  hard-coded embedded SVG document (with the bundled Roboto Mono fallback
  font) onto the drawing surface.  The SVG string and font bytes are compile
  time constants, so the event carries no data. -/
  | drawSvg
  /-- `canvas().draw_path(&path.to_skia_path(), &fill.to_paint(&selrect))`. -/
  | drawPath (p : Nat) (fill : Fill) (selrect : Rect)
  /-- `drawing_surface.draw(final_surface, ...)` with the opacity/blend paint:
  composition of the scratch surface onto the final surface. -/
  | compose (opacity : ℚ) (blend_mode : Nat)
  /-- `drawing_surface.canvas().clear(TRANSPARENT)` at the end of
  `render_single_shape`. -/
  | clearDrawing
  /-- `final_surface.canvas().draw_image(image, (0, 0), paint)` in
  `render_all_from_cache`: blit of the cached snapshot. -/
  | drawCached (image : Nat)
  /-- `render_debug_view`: the scaled viewbox outline on the debug surface. -/
  | debugView (scaled : Rect)
  /-- `debug_surface.draw(final_surface, ...)` in `render_debug`. -/
  | drawDebug
  /-- `final_surface.image_snapshot()` in `render_all`; records the id given
  to the captured snapshot. -/
  | snapshotTaken (image : Nat)
  /-- `flush`: submit the final surface's pending commands to the GPU. -/
  | flush
deriving DecidableEq, Repr

/-- The rect-scaling shared by `render_debug_shape` and `render_debug_view`:
`x ↦ 100 + x·0.2`, sizes scaled by `0.2`, via `set_xywh`. -/
def debugScaleRect (r : Rect) : Rect :=
  Rect.setXYWH (100 + r.x * (1 / 5)) (100 + r.y * (1 / 5))
    (r.width * (1 / 5)) (r.height * (1 / 5))

/-- `render_debug_shape(shape, intersected)` as an event. -/
def renderDebugShape (sh : Shape) (intersected : Bool) : Event :=
  .debugRect (debugScaleRect sh.selrect) intersected

/-! ## The render state -/

/-- `CachedSurfaceImage`: the most recent full-render snapshot, the viewbox
that produced it, and the completeness flag.  The raster image itself is
GPU-resident; it is embedded as the id issued by `image_snapshot`. -/
structure CachedSurfaceImage where
  image : Nat
  viewbox : Viewbox
  has_all_shapes : Bool
deriving DecidableEq, Repr

/-- `CachedSurfaceImage::is_dirty`: dirty iff not complete and the cached
area does not contain the current viewbox's area. -/
def CachedSurfaceImage.is_dirty (c : CachedSurfaceImage) (viewbox : Viewbox) : Bool :=
  !c.has_all_shapes && !(c.viewbox.area.contains viewbox.area)

/-- `RenderOptions`: debug-flags bitmask and optional device-pixel-ratio. -/
structure RenderOptions where
  debug_flags : Nat
  dpr : Option ℚ
deriving DecidableEq, Repr

namespace RenderOptions

/-- `RenderOptions::default()`. -/
def default : RenderOptions := { debug_flags := 0, dpr := none }

/-- Modelled from the spec: `debug::DEBUG_VISIBLE` (the `crate::debug`
constants are outside the provided tree) — "one bit enables visible debug
rectangles"; embedded as the lowest bit. -/
def DEBUG_VISIBLE : Nat := 1

/-- `RenderOptions::is_debug_visible`. -/
def is_debug_visible (o : RenderOptions) : Bool :=
  o.debug_flags &&& DEBUG_VISIBLE == DEBUG_VISIBLE

/-- `RenderOptions::dpr`: the stored ratio, defaulting to `1.0`. -/
def dprValue (o : RenderOptions) : ℚ :=
  o.dpr.getD 1

end RenderOptions

/-- `RenderState`: the three surfaces (embedded by their pixel dimensions),
the cached-frame record, options, viewbox and image asset table.  `images` is
an association list embedding the `HashMap<Uuid, Image>` (lookup returns the
most recently inserted binding); decoded images are embedded as opaque `Nat`
tokens.  `snap_counter` issues fresh ids for `image_snapshot`. -/
structure RenderState where
  final_surface : Int × Int
  drawing_surface : Int × Int
  debug_surface : Int × Int
  cached_surface_image : Option CachedSurfaceImage
  options : RenderOptions
  viewbox : Viewbox
  images : List (Nat × Nat)
  snap_counter : Nat
deriving DecidableEq, Repr

namespace RenderState

/-- `RenderState::new(width, height)`: three surfaces at the given size, no
cached frame, default options, fresh viewbox, empty image table. -/
def new (width height : Int) : RenderState :=
  { final_surface := (width, height)
    drawing_surface := (width, height)
    debug_surface := (width, height)
    cached_surface_image := none
    options := RenderOptions.default
    viewbox := Viewbox.new (width : ℚ) (height : ℚ)
    images := []
    snap_counter := 0 }

/-- `RenderState::add_image(id, image_data)`.  Decoding
(`Image::from_encoded`) is performed by skia, outside this repository; it is
taken as an explicit parameter `decode` and the theorem quantifies over it. -/
def add_image (decode : List Nat → Option Nat) (st : RenderState)
    (id : Nat) (image_data : List Nat) : RenderState × Except String Unit :=
  match decode image_data with
  | none => (st, .error "Error decoding image data")
  | some image => ({ st with images := (id, image) :: st.images }, .ok ())

/-- `RenderState::has_image(id)`. -/
def has_image (st : RenderState) (id : Nat) : Bool :=
  (st.images.lookup id).isSome

/-- `RenderState::set_debug_flags(debug)`. -/
def set_debug_flags (st : RenderState) (debug : Nat) : RenderState :=
  { st with options := { st.options with debug_flags := debug } }

/-- `RenderState::resize(width, height)`: reallocate all three surfaces at
`(width, height) * dpr` (floored to integer pixels) and update the logical
viewbox size. -/
def resize (st : RenderState) (width height : Int) : RenderState × List Event :=
  let dpr_width : Int := Rat.floor ((width : ℚ) * st.options.dprValue)
  let dpr_height : Int := Rat.floor ((height : ℚ) * st.options.dprValue)
  ({ st with
      final_surface := (dpr_width, dpr_height)
      drawing_surface := (dpr_width, dpr_height)
      debug_surface := (dpr_width, dpr_height)
      viewbox := st.viewbox.set_wh (width : ℚ) (height : ℚ) },
    [.realloc dpr_width dpr_height])

/-- `RenderState::set_dpr(dpr)`: if the value differs from the stored option,
store it and resize at the (floored) current logical viewbox size. -/
def set_dpr (st : RenderState) (dpr : ℚ) : RenderState × List Event :=
  if some dpr ≠ st.options.dpr then
    let st1 := { st with options := { st.options with dpr := some dpr } }
    st1.resize (Rat.floor st.viewbox.width) (Rat.floor st.viewbox.height)
  else
    (st, [])

end RenderState

/-! ## The fill and shape renderers (trace semantics)

Rendering does not mutate the embedded state (canvas matrices and pixels live
in the trace), so the renderers are functions from the state to the list of
events they issue. -/

/-- `RenderState::render_fill(fill, selrect, kind)`: one paint layer.
An image fill looks the id up in the asset table and silently skips on a
miss; a non-image fill on `Kind::Rect` renders the fixed embedded SVG
document; a non-image fill on `Kind::Path` rasterizes the path with the
fill's paint. -/
def renderFill (images : List (Nat × Nat)) (fill : Fill) (selrect : Rect)
    (kind : Kind) : List Event :=
  match fill, kind with
  | .image id size, kind =>
    match images.lookup id with
    | some image => [.drawImageInContainer image size kind fill selrect]
    | none => []
  | _, .rect _ => [.drawSvg]
  | _, .path p => [.drawPath p fill selrect]

/-- `RenderState::render_single_shape(shape)`: concat the pivoted affine
matrix, draw the fills in reverse declaration order, composite the scratch
surface onto the final surface through the opacity/blend paint, clear the
scratch surface. -/
def renderSingleShape (st : RenderState) (sh : Shape) : List Event :=
  [.concat (shapeMatrix sh)]
    ++ (sh.fills.reverse.map (fun f => renderFill st.images f sh.selrect sh.kind)).flatten
    ++ [.compose sh.opacity sh.blend_mode, .clearDrawing]

/-- `RenderState::render_shape_tree(id, shapes)`: the recursive depth-first
walk.  Returns the issued trace and the accumulated completeness flag, or
`none` when the `fuel` bound is exhausted or a shape id fails to resolve (the
`shapes.get(&id).unwrap()` panic).  The `for shape_id in shape_ids` loop is
embedded as a left fold over the child ids, folding
`is_complete = render_shape_tree(child) && is_complete` and appending each
child's trace in order. -/
def renderShapeTree : Nat → RenderState → Nat → Shapes → Option (List Event × Bool)
  | 0, _, _, _ => none
  | fuel + 1, st, id, shapes =>
    match shapes id with
    | none => none
    | some shape =>
      let is_complete := st.viewbox.area.contains shape.selrect
      if id ≠ 0 ∧ (!(shape.selrect.intersects st.viewbox.area) || shape.hidden) = true then
        some ([renderDebugShape shape false], is_complete)
      else
        let head : List Event := if id ≠ 0 then [renderDebugShape shape true] else []
        let own : List Event := if id ≠ 0 then renderSingleShape st shape else []
        let children :=
          shape.children.foldl
            (fun acc cid =>
              match acc with
              | none => none
              | some (trace, b) =>
                match renderShapeTree fuel st cid shapes with
                | none => none
                | some (ctrace, cb) => some (trace ++ ctrace, cb && b))
            (some ([], is_complete))
        match children with
        | none => none
        | some (child_trace, acc) =>
          some (head ++ [.save .final, .save .drawing] ++ own ++ child_trace
                  ++ [.restore .final, .restore .drawing], acc)

/-- `RenderState::render_debug`: draw the scaled viewbox outline and
composite the debug surface onto the final surface. -/
def renderDebug (st : RenderState) : List Event :=
  [.debugView (debugScaleRect st.viewbox.area), .drawDebug]

/-- `RenderState::render_all(shapes, generate_cached_surface_image)`: reset,
apply zoom·dpr scale and pan translation, walk the tree from the nil root,
replace the cached-frame record when regeneration is forced or no record
exists, optionally composite the debug overlay, and flush.  `none` embeds the
panic of an unresolvable shape id (or exhausted fuel). -/
def renderAll (fuel : Nat) (st : RenderState) (shapes : Shapes)
    (generate_cached_surface_image : Bool) : Option (RenderState × List Event) :=
  let z := st.viewbox.zoom * st.options.dprValue
  let head : List Event :=
    [.resetCanvas, .scaleCanvas .drawing z z,
     .translateCanvas .drawing st.viewbox.pan_x st.viewbox.pan_y]
  match renderShapeTree fuel st 0 shapes with
  | none => none
  | some (tree_trace, is_complete) =>
    let (st', snap_trace) :=
      if generate_cached_surface_image || st.cached_surface_image.isNone then
        ({ st with
            cached_surface_image := some
              { image := st.snap_counter, viewbox := st.viewbox
                has_all_shapes := is_complete }
            snap_counter := st.snap_counter + 1 },
          [Event.snapshotTaken st.snap_counter])
      else (st, [])
    let debug_trace := if st.options.is_debug_visible then renderDebug st else []
    some (st', head ++ tree_trace ++ snap_trace ++ debug_trace ++ [.flush])

/-- `RenderState::render_all_from_cache`: the fast-path redraw.  Resets the
canvases, then (if a cached record exists) blits the stored snapshot under
`navigate_zoom = new.zoom / cached.zoom` and pan deltas scaled by
`cached.zoom` (times dpr), inside a save/restore pair on the final and
drawing canvases, and flushes.  Errors (after the reset) when no cached
record exists. -/
def renderAllFromCache (st : RenderState) : List Event × Except String Unit :=
  match st.cached_surface_image with
  | none => ([.resetCanvas], .error "Uninitialized cached surface image")
  | some cached =>
    let navigate_zoom := st.viewbox.zoom / cached.viewbox.zoom
    let navigate_x := cached.viewbox.zoom * (st.viewbox.pan_x - cached.viewbox.pan_x)
    let navigate_y := cached.viewbox.zoom * (st.viewbox.pan_y - cached.viewbox.pan_y)
    ([.resetCanvas, .save .final, .save .drawing,
      .scaleCanvas .final navigate_zoom navigate_zoom,
      .translateCanvas .final (navigate_x * st.options.dprValue)
        (navigate_y * st.options.dprValue),
      .drawCached cached.image,
      .restore .final, .restore .drawing, .flush], .ok ())

/-- `RenderState::navigate(shapes)`: no-op on an empty cache; a forced
`render_all` when the cached record is dirty for the current viewbox; the
cached fast path otherwise. -/
def navigate (fuel : Nat) (st : RenderState) (shapes : Shapes) :
    Option (RenderState × List Event × Except String Unit) :=
  match st.cached_surface_image with
  | none => some (st, [], .ok ())
  | some cached =>
    if cached.is_dirty st.viewbox then
      (renderAll fuel st shapes true).map (fun p => (p.1, p.2, Except.ok ()))
    else
      let (trace, r) := renderAllFromCache st
      some (st, trace, r)

/-! ## Concrete fixtures

A small scene used by the witnesses and counterexamples: a `100×100` fresh
render state (visible area `[0,100]×[0,100]`), a root whose rect lies inside
the view, one hidden child fully inside the view, and one grandchild fully
outside it. -/

/-- A visible in-view path shape with no children, used as a template. -/
def baseShape : Shape :=
  { selrect := ⟨10, 10, 20, 20⟩, children := [], hidden := false, fills := []
    kind := .path 0, translation := (0, 0), scale := (1, 1), skew := (0, 0)
    opacity := 1, blend_mode := 0 }

/-- The synthetic root (id 0): in-view rect, one child (id 1). -/
def rootShape : Shape := { baseShape with children := [1] }

/-- Id 1: hidden, yet fully contained in the visible area; one child (id 2). -/
def hiddenShape : Shape :=
  { baseShape with selrect := ⟨30, 30, 40, 40⟩, hidden := true, children := [2] }

/-- Id 2: fully outside the visible area. -/
def outsideShape : Shape := { baseShape with selrect := ⟨200, 200, 300, 300⟩ }

/-- The fixture shape table. -/
def shapesC : Shapes := fun id =>
  if id = 0 then some rootShape
  else if id = 1 then some hiddenShape
  else if id = 2 then some outsideShape
  else none

/-- A fresh `100×100` render state (no cached frame, default options). -/
def stC : RenderState := RenderState.new 100 100

/-- A cached snapshot of the fixture scene, marked incomplete, taken at the
initial viewbox. -/
def cachedC : CachedSurfaceImage :=
  { image := 7, viewbox := Viewbox.new 100 100, has_all_shapes := false }

/-- The fixture state after a pan to `(2, 3)` and zoom to `2`, holding
`cachedC`: the new visible area `[−2,48]×[−3,47]` is NOT contained in the
cached `[0,100]×[0,100]` one, yet overlaps it. -/
def stNav : RenderState :=
  { stC with
      cached_surface_image := some cachedC
      viewbox :=
        { width := 100, height := 100, zoom := 2, pan_x := 2, pan_y := 3
          area := Viewbox.computeArea 100 100 2 2 3 } }

/-- The fixture state with device-pixel-ratio `3.5` stored. -/
def stDpr35 : RenderState := ((RenderState.new 4 4).set_dpr (7 / 2)).1

/-- The fixture state at a zoomed-in viewbox whose visible area
`[0,50]×[0,50]` IS contained in `cachedC`'s `[0,100]×[0,100]`. -/
def stNavIn : RenderState :=
  { stC with
      cached_surface_image := some cachedC
      viewbox :=
        { width := 100, height := 100, zoom := 2, pan_x := 0, pan_y := 0
          area := Viewbox.computeArea 100 100 2 0 0 } }

end Penpot

/- Mathlib marks the `Rat` arithmetic kernels `@[irreducible]`; re-open them
for this file so that `decide` can evaluate the embedding on the concrete
fixtures. -/
attribute [local semireducible] Rat.mul Rat.add Rat.sub Rat.inv

namespace Penpot

/-! ## The claims -/

/-- C1: a cached-frame record is dirty (unusable for the fast-path redraw)
iff its completeness flag is false AND the current viewbox's visible area is
not fully contained within the cached viewbox's visible area; equivalently,
it is reusable (not dirty) iff it is marked complete or the new visible area
is contained in the cached one. -/
theorem C1_cached_frame_dirty_iff (c : CachedSurfaceImage) (vb : Viewbox) :
    (c.is_dirty vb = true ↔
      c.has_all_shapes = false ∧ c.viewbox.area.contains vb.area = false) ∧
    (c.is_dirty vb = false ↔
      c.has_all_shapes = true ∨ c.viewbox.area.contains vb.area = true) := by
  cases hc : c.has_all_shapes <;>
    cases ha : c.viewbox.area.contains vb.area <;>
      simp [CachedSurfaceImage.is_dirty, hc, ha]

/-- C2: `navigate(shapes)` is a three-way dispatch.  With no cached frame it
is a no-op returning success with no events and no state change; with a
cached frame that is dirty it is exactly a full `render_all` with cache
regeneration forced; otherwise it is the cached redraw (which succeeds); and
whenever it returns at all, the result is success — an error could only
arise in the (unreachable) dirty-but-empty state. -/
theorem C2_navigate_dispatch (fuel : Nat) (st : RenderState) (shapes : Shapes) :
    (st.cached_surface_image = none →
      navigate fuel st shapes = some (st, [], Except.ok ())) ∧
    (∀ c, st.cached_surface_image = some c → c.is_dirty st.viewbox = true →
      navigate fuel st shapes =
        (renderAll fuel st shapes true).map (fun p => (p.1, p.2, Except.ok ()))) ∧
    (∀ c, st.cached_surface_image = some c → c.is_dirty st.viewbox = false →
      navigate fuel st shapes = some (st, (renderAllFromCache st).1, Except.ok ()) ∧
      (renderAllFromCache st).2 = Except.ok ()) ∧
    (∀ st' trace r, navigate fuel st shapes = some (st', trace, r) →
      r = Except.ok ()) := by
  refine ⟨?_, ?_, ?_, ?_⟩
  · intro h
    simp [navigate, h]
  · intro c hc hd
    simp [navigate, hc, hd]
  · intro c hc hd
    refine ⟨?_, ?_⟩ <;> simp [navigate, renderAllFromCache, hc, hd]
  · intro st' trace r h
    rcases hc : st.cached_surface_image with _ | c
    · simp [navigate, hc] at h
      exact h.2.2.symm
    · by_cases hd : c.is_dirty st.viewbox = true
      · simp only [navigate, hc, hd, if_true, Option.map_eq_some'] at h
        obtain ⟨p, -, hp⟩ := h
        exact (congrArg (fun q => q.2.2) hp).symm
      · simp only [navigate, hc, if_neg hd, renderAllFromCache] at h
        simp only [Option.some.injEq] at h
        exact (congrArg (fun q => q.2.2) h).symm

/-- C2 witness: on the fresh fixture state (no cached frame), `navigate` is a
successful no-op. -/
theorem C2_navigate_dispatch_witness :
    navigate 1 stC shapesC = some (stC, [], Except.ok ()) :=
  (C2_navigate_dispatch 1 stC shapesC).1 rfl

end Penpot

namespace Penpot

/-- Unfolding of the culled branch of `render_shape_tree`: a resolvable
non-root shape that does not intersect the visible area or is hidden yields
exactly one "excluded" debug rect and returns its own containment flag. -/
theorem renderShapeTree_culled (fuel : Nat) (st : RenderState) (id : Nat)
    (shapes : Shapes) (sh : Shape) (hid : shapes id = some sh) (hnz : id ≠ 0)
    (hcull : (!(sh.selrect.intersects st.viewbox.area) || sh.hidden) = true) :
    renderShapeTree (fuel + 1) st id shapes =
      some ([renderDebugShape sh false], st.viewbox.area.contains sh.selrect) := by
  simp only [renderShapeTree, hid]
  rw [if_pos ⟨hnz, hcull⟩]

/-- C3 counterexample: on the fixture scene (hidden shape 1 fully inside the
view, its child 2 fully outside), a forced `render_all` stores a cached
record whose completeness flag is `true`, even though shape 2's bounding
rect is not contained in the viewbox and shape 1 was culled (it is hidden) —
refuting both "flag true iff every shape's rect was contained" and
"false if any shape is culled". -/
theorem C3_counterexample :
    (renderAll 3 stC shapesC true).map
        (fun p => p.1.cached_surface_image.map (fun c => c.has_all_shapes)) =
      some (some true) ∧
    shapesC 1 = some hiddenShape ∧ hiddenShape.hidden = true ∧
    shapesC 2 = some outsideShape ∧
    stC.viewbox.area.contains outsideShape.selrect = false := by
  refine ⟨by decide, by decide, rfl, by decide, by decide⟩

/-- C3 (amended): after `render_all(shapes, force_cache_regen)`, the cached
record is replaced iff `force_cache_regen` is true or no cached frame
existed (otherwise it is left unchanged); when replaced, its completeness
flag equals the tree walk's accumulated value — root containment folded over
the visited children, a culled branch contributing its own containment flag
with its descendants never consulted — which is NOT in general "every
shape's rect was contained". -/
theorem C3_render_all_cache_replacement (fuel : Nat) (st : RenderState)
    (shapes : Shapes) (force : Bool) (tree_trace : List Event) (b : Bool)
    (h : renderShapeTree fuel st 0 shapes = some (tree_trace, b)) :
    ((force = true ∨ st.cached_surface_image = none) →
      (renderAll fuel st shapes force).map (fun p => p.1.cached_surface_image) =
        some (some { image := st.snap_counter, viewbox := st.viewbox
                     has_all_shapes := b })) ∧
    (force = false → ∀ c, st.cached_surface_image = some c →
      (renderAll fuel st shapes force).map (fun p => p.1.cached_surface_image) =
        some st.cached_surface_image) := by
  constructor
  · rintro (hf | hf) <;> simp [renderAll, h, hf]
  · intro hf c hc
    simp [renderAll, h, hf, hc]

/-- C3 witness: the fixture walk reports `true`, and a forced `render_all`
over it stores a complete record tagged with the current viewbox. -/
theorem C3_render_all_cache_replacement_witness :
    (renderAll 3 stC shapesC true).map (fun p => p.1.cached_surface_image) =
      some (some { image := stC.snap_counter, viewbox := stC.viewbox
                   has_all_shapes := true }) :=
  (C3_render_all_cache_replacement 3 stC shapesC true
      [.save .final, .save .drawing, renderDebugShape hiddenShape false,
       .restore .final, .restore .drawing] true (by decide)).1 (Or.inl rfl)

/-- C4 counterexample: shape 1 of the fixture is hidden (hence culled) yet
fully contained in the visible area, and the recursive call on it returns
`true`, not `false` — refuting "culled branches always report not complete,
including a shape that is hidden yet fully contained". -/
theorem C4_counterexample :
    (renderShapeTree 1 stC 1 shapesC).map Prod.snd = some true ∧
    shapesC 1 = some hiddenShape ∧ hiddenShape.hidden = true ∧
    stC.viewbox.area.contains hiddenShape.selrect = true := by
  refine ⟨by decide, by decide, rfl, by decide⟩

/-- C4 (amended): the recursive call on a culled non-root shape returns the
shape's own containment flag (`viewbox.area contains selrect`), which is
`false` whenever the shape was culled for non-intersection, but `true` when
the shape is hidden yet fully contained in the visible area. -/
theorem C4_culled_branch_returns_containment (fuel : Nat) (st : RenderState)
    (id : Nat) (shapes : Shapes) (sh : Shape) (hid : shapes id = some sh)
    (hnz : id ≠ 0)
    (hcull : sh.selrect.intersects st.viewbox.area = false ∨ sh.hidden = true) :
    (renderShapeTree (fuel + 1) st id shapes).map Prod.snd =
      some (st.viewbox.area.contains sh.selrect) ∧
    (sh.selrect.intersects st.viewbox.area = false →
      st.viewbox.area.contains sh.selrect = false) := by
  have hcull' : (!(sh.selrect.intersects st.viewbox.area) || sh.hidden) = true := by
    rcases hcull with h | h <;> simp [h]
  constructor
  · rw [renderShapeTree_culled fuel st id shapes sh hid hnz hcull']
    rfl
  · intro hni
    cases hco : st.viewbox.area.contains sh.selrect
    · rfl
    · have hi := Rect.intersects_of_contains hco
      rw [hni] at hi
      exact hi.symm

/-- C4 witness: the out-of-view fixture shape 2 is culled for
non-intersection; the call on it returns its containment flag, which is
forced to `false`. -/
theorem C4_culled_branch_returns_containment_witness :
    (renderShapeTree 1 stC 2 shapesC).map Prod.snd =
      some (stC.viewbox.area.contains outsideShape.selrect) ∧
    (outsideShape.selrect.intersects stC.viewbox.area = false →
      stC.viewbox.area.contains outsideShape.selrect = false) :=
  C4_culled_branch_returns_containment 0 stC 2 shapesC outsideShape (by decide)
    (by decide) (Or.inl (by decide))

/-- C5: for a culled non-root shape (hidden, or bounding rect not
intersecting the visible area), the whole trace of the recursive call is
exactly one "excluded" debug-overlay rect — no fills are drawn and no child
is visited. -/
theorem C5_culled_shape_draws_only_excluded_marker (fuel : Nat)
    (st : RenderState) (id : Nat) (shapes : Shapes) (sh : Shape)
    (hid : shapes id = some sh) (hnz : id ≠ 0)
    (hcull : sh.selrect.intersects st.viewbox.area = false ∨ sh.hidden = true) :
    (renderShapeTree (fuel + 1) st id shapes).map Prod.fst =
      some [renderDebugShape sh false] := by
  have hcull' : (!(sh.selrect.intersects st.viewbox.area) || sh.hidden) = true := by
    rcases hcull with h | h <;> simp [h]
  rw [renderShapeTree_culled fuel st id shapes sh hid hnz hcull']
  rfl

/-- C5 witness: the hidden (yet in-view) fixture shape 1 contributes exactly
its excluded marker — none of its fills, none of its children. -/
theorem C5_culled_shape_draws_only_excluded_marker_witness :
    (renderShapeTree 1 stC 1 shapesC).map Prod.fst =
      some [renderDebugShape hiddenShape false] :=
  C5_culled_shape_draws_only_excluded_marker 0 stC 1 shapesC hiddenShape
    (by decide) (by decide) (Or.inr rfl)

/-- C6: with a cached record present, the fast-path redraw issues exactly a
reset, a save on both canvases, a uniform scale by `new.zoom / cached.zoom`,
a translate by `cached.zoom * (new.pan − cached.pan)` scaled by the
device-pixel-ratio, the blit of the stored snapshot, the restores, and a
final GPU flush — no shape-tree traversal events — and succeeds. -/
theorem C6_cache_redraw_trace (st : RenderState) (c : CachedSurfaceImage)
    (hc : st.cached_surface_image = some c) :
    renderAllFromCache st =
      ([.resetCanvas, .save .final, .save .drawing,
        .scaleCanvas .final (st.viewbox.zoom / c.viewbox.zoom)
          (st.viewbox.zoom / c.viewbox.zoom),
        .translateCanvas .final
          (c.viewbox.zoom * (st.viewbox.pan_x - c.viewbox.pan_x) * st.options.dprValue)
          (c.viewbox.zoom * (st.viewbox.pan_y - c.viewbox.pan_y) * st.options.dprValue),
        .drawCached c.image,
        .restore .final, .restore .drawing, .flush], Except.ok ()) := by
  simp [renderAllFromCache, hc]

/-- C6 witness: the fixture state `stNavIn` (zoom 2 over a cached zoom-1
snapshot) redraws from the cache with scale `2` and pan deltas `0`. -/
theorem C6_cache_redraw_trace_witness :
    renderAllFromCache stNavIn =
      ([.resetCanvas, .save .final, .save .drawing,
        .scaleCanvas .final (stNavIn.viewbox.zoom / cachedC.viewbox.zoom)
          (stNavIn.viewbox.zoom / cachedC.viewbox.zoom),
        .translateCanvas .final
          (cachedC.viewbox.zoom * (stNavIn.viewbox.pan_x - cachedC.viewbox.pan_x) *
            stNavIn.options.dprValue)
          (cachedC.viewbox.zoom * (stNavIn.viewbox.pan_y - cachedC.viewbox.pan_y) *
            stNavIn.options.dprValue),
        .drawCached cachedC.image,
        .restore .final, .restore .drawing, .flush], Except.ok ()) :=
  C6_cache_redraw_trace stNavIn cachedC rfl

/-- C7 counterexample: on a fresh render state the device-pixel-ratio
defaults to `1.0`, yet `set_dpr(1.0)` DOES reallocate the surfaces (the code
compares `Some(ratio)` against the stored `Option`, which starts as `None`)
— refuting "on a fresh render state `set_dpr(1.0)` performs no
reallocation". -/
theorem C7_counterexample :
    ((RenderState.new 100 100).set_dpr 1).2 = [Event.realloc 100 100] ∧
    (RenderState.new 100 100).options.dprValue = 1 ∧
    (RenderState.new 100 100).options.dpr = none := by
  refine ⟨by decide, rfl, rfl⟩

/-- C7 (amended): `set_dpr(ratio)` reallocates iff `some ratio` differs from
the stored dpr option (initially `none`, so the first call always
reallocates, even at the default effective ratio `1.0`); a call with the
stored value is a complete no-op, after any call the stored value is
`some ratio`, and hence a second call with the same ratio never reallocates
— at most one reallocation for two equal calls. -/
theorem C7_set_dpr_realloc_iff (st : RenderState) (dpr : ℚ) :
    ((st.set_dpr dpr).2 = [] ↔ st.options.dpr = some dpr) ∧
    (st.options.dpr = some dpr → st.set_dpr dpr = (st, [])) ∧
    ((st.set_dpr dpr).1.options.dpr = some dpr) ∧
    (((st.set_dpr dpr).1.set_dpr dpr).2 = []) := by
  by_cases h : some dpr = st.options.dpr
  · simp [RenderState.set_dpr, h, RenderState.resize, eq_comm]
  · simp [RenderState.set_dpr, h, RenderState.resize, eq_comm]
    intro h'
    exact absurd h'.symm h

/-- C7 witness: after storing ratio `3`, a second `set_dpr 3` is a no-op. -/
theorem C7_set_dpr_realloc_iff_witness :
    ((RenderState.new 2 2).set_dpr 3).1.set_dpr 3 =
      (((RenderState.new 2 2).set_dpr 3).1, []) :=
  (C7_set_dpr_realloc_iff ((RenderState.new 2 2).set_dpr 3).1 3).2.1 (by decide)

/-- C8 counterexample: at dpr `3.5`, `resize(3, 5)` produces surfaces of
`(10, 17)` pixels — `floor((w,h)·dpr)` — whereas `(w,h)·dpr = (10.5, 17.5)`;
the claimed equality fails for dpr `3.5` at odd sizes. -/
theorem C8_counterexample :
    (stDpr35.resize 3 5).1.final_surface = (10, 17) ∧
    stDpr35.options.dprValue = 7 / 2 ∧
    (10 : ℚ) ≠ (3 : ℚ) * (7 / 2) ∧ (17 : ℚ) ≠ (5 : ℚ) * (7 / 2) := by
  refine ⟨by decide, by decide, by decide, by decide⟩

/-- `Rat.floor` is the identity on integer casts. -/
theorem ratFloor_intCast (n : Int) : Rat.floor ((n : ℚ)) = n := by
  simp [Rat.floor]

/-- C8 (amended): after `resize(w, h)` all three surfaces have identical
pixel dimensions `(⌊w·dpr⌋, ⌊h·dpr⌋)`, and the viewbox's logical size is
updated to `(w, h)`; for dpr `1.0` and `2.0` the flooring is exact, so the
dimensions equal `(w, h)·dpr` there. -/
theorem C8_resize_dimensions (st : RenderState) (width height : Int) :
    (st.resize width height).1.final_surface =
      (Rat.floor ((width : ℚ) * st.options.dprValue),
       Rat.floor ((height : ℚ) * st.options.dprValue)) ∧
    (st.resize width height).1.drawing_surface = (st.resize width height).1.final_surface ∧
    (st.resize width height).1.debug_surface = (st.resize width height).1.final_surface ∧
    (st.resize width height).1.viewbox.width = (width : ℚ) ∧
    (st.resize width height).1.viewbox.height = (height : ℚ) ∧
    (st.options.dprValue = 1 →
      (st.resize width height).1.final_surface = (width, height)) ∧
    (st.options.dprValue = 2 →
      (st.resize width height).1.final_surface = (2 * width, 2 * height)) := by
  refine ⟨rfl, rfl, rfl, rfl, rfl, ?_, ?_⟩
  · intro h1
    simp [RenderState.resize, h1, ratFloor_intCast]
  · intro h2
    have hw : (width : ℚ) * 2 = ((2 * width : Int) : ℚ) := by push_cast; ring
    have hh : (height : ℚ) * 2 = ((2 * height : Int) : ℚ) := by push_cast; ring
    simp only [RenderState.resize, h2, hw, hh, ratFloor_intCast]

/-- C8 witness: on a fresh state (dpr defaulting to `1.0`), `resize(7, 8)`
yields `7×8` surfaces. -/
theorem C8_resize_dimensions_witness :
    ((RenderState.new 9 9).resize 7 8).1.final_surface = (7, 8) :=
  (C8_resize_dimensions (RenderState.new 9 9) 7 8).2.2.2.2.2.1 rfl

/-- C9: `add_image(id, bytes)` stores the decoded image under `id`
(overwriting any prior binding for lookups) and succeeds when the decoder
recognizes the bytes, and returns the decode-error string leaving the state
untouched when it does not; an image fill draws the stored asset exactly
when its id is present in the table, and draws nothing (without error) when
it is absent. -/
theorem C9_add_image_and_image_fill (decode : List Nat → Option Nat)
    (st : RenderState) (id : Nat) (bytes : List Nat) :
    (∀ image, decode bytes = some image →
      RenderState.add_image decode st id bytes =
        ({ st with images := (id, image) :: st.images }, Except.ok ()) ∧
      ((id, image) :: st.images).lookup id = some image) ∧
    (decode bytes = none →
      RenderState.add_image decode st id bytes =
        (st, Except.error "Error decoding image data")) ∧
    (∀ fid size selrect kind,
      (st.images.lookup fid = none →
        renderFill st.images (Fill.image fid size) selrect kind = []) ∧
      (∀ image, st.images.lookup fid = some image →
        renderFill st.images (Fill.image fid size) selrect kind =
          [Event.drawImageInContainer image size kind (Fill.image fid size) selrect])) := by
  refine ⟨?_, ?_, ?_⟩
  · intro image hdec
    refine ⟨?_, ?_⟩
    · simp [RenderState.add_image, hdec]
    · simp [List.lookup]
  · intro hdec
    simp [RenderState.add_image, hdec]
  · intro fid size selrect kind
    refine ⟨?_, ?_⟩
    · intro hmiss
      simp [renderFill, hmiss]
    · intro image hhit
      simp [renderFill, hhit]

/-- C9 witness: a decoder recognizing the bytes as image token `42` stores
`42` under id `5` and reports success, and the stored binding is found. -/
theorem C9_add_image_and_image_fill_witness :
    RenderState.add_image (fun _ => some 42) stC 5 [1, 2] =
      ({ stC with images := (5, 42) :: stC.images }, Except.ok ()) ∧
    ((5, 42) :: stC.images).lookup 5 = some 42 :=
  (C9_add_image_and_image_fill (fun _ => some 42) stC 5 [1, 2]).1 42 rfl

/-- C10: for `Rect`-kind geometry with a non-image fill, `render_fill` draws
the fixed hard-coded embedded SVG document (with the bundled fallback font):
the issued draw commands are the same single `drawSvg` event for any two
non-image fill descriptors, any two asset tables and any two target
rectangles — the fill's descriptor and the rectangle have no influence. -/
theorem C10_rect_nonimage_fill_is_constant_svg (images1 images2 : List (Nat × Nat))
    (f1 f2 : Fill) (sr1 sr2 r1 r2 : Rect)
    (h1 : f1.isImage = false) (h2 : f2.isImage = false) :
    renderFill images1 f1 sr1 (Kind.rect r1) = [Event.drawSvg] ∧
    renderFill images1 f1 sr1 (Kind.rect r1) =
      renderFill images2 f2 sr2 (Kind.rect r2) := by
  cases f1 <;> cases f2 <;> simp_all [Fill.isImage] <;> exact ⟨rfl, rfl⟩

/-- C10 witness: a solid fill and a gradient fill, over different tables,
rects and selrects, issue the identical constant SVG draw. -/
theorem C10_rect_nonimage_fill_is_constant_svg_witness :
    renderFill [] (Fill.solid 1) ⟨0, 0, 1, 1⟩ (Kind.rect ⟨0, 0, 1, 1⟩) =
      [Event.drawSvg] ∧
    renderFill [] (Fill.solid 1) ⟨0, 0, 1, 1⟩ (Kind.rect ⟨0, 0, 1, 1⟩) =
      renderFill [(3, 4)] (Fill.gradient 2) ⟨5, 5, 9, 9⟩ (Kind.rect ⟨2, 2, 3, 3⟩) :=
  C10_rect_nonimage_fill_is_constant_svg [] [(3, 4)] (Fill.solid 1)
    (Fill.gradient 2) ⟨0, 0, 1, 1⟩ ⟨5, 5, 9, 9⟩ ⟨0, 0, 1, 1⟩ ⟨2, 2, 3, 3⟩ rfl rfl

end Penpot
